import Mathlib

/-!
Verification of the conversational core of the AI-Invoice-Assistant-Pro
repository: the keyword intent parser and knowledge base
(`backend/core/agent.py`), the FAQ retrieval system
(`backend/core/rag_system.py`), and the multi-provider LLM manager with
tool calling (`backend/core/llm_manager.py`).

Python is shallowly embedded: methods become pure functions with explicit
state passing, Python exceptions become `Except PyError`, dictionaries
become association lists, and external effects (network calls to LLM
providers and the exchange-rate API, the system clock, `json.loads`)
become explicit oracle parameters.
-/

/-- Model of a raised Python exception. -/
inductive PyError where
  | attributeError (msg : String)
  | keyError (key : String)
  | typeError (msg : String)
  | valueError (msg : String)
  | runtimeError (msg : String)
deriving DecidableEq

/-! ## String helpers: Python `in` (substring containment) -/

/-- Does `hay` start with `needle`?  (Helper for Python substring search.) -/
def startsList : List Char → List Char → Bool
  | [], _ => true
  | _ :: _, [] => false
  | n :: ns, h :: hs => n = h && startsList ns hs

/-- Substring containment on character lists: Python `needle in hay`. -/
def listContains (needle : List Char) : List Char → Bool
  | [] => needle.isEmpty
  | h :: t => startsList needle (h :: t) || listContains needle t

/-- Python `needle in hay` for strings (contiguous substring containment). -/
def strIn (needle hay : String) : Bool := listContains needle.toList hay.toList

/-- Python `question.lower()`, modelled character-wise with `Char.toLower`
(the two agree on ASCII text, which covers every keyword below). -/
def pyLower (s : String) : String := String.mk (s.toList.map Char.toLower)

/-!
`backend/core/agent.py` — IntentParser

`question.lower()` is modelled by `pyLower`; the two agree on all
ASCII text, which covers every keyword and pattern below.
-/

/-- `QuestionType` enum of `agent.py`. -/
inductive QuestionType where
  | pricing
  | contact
  | location
  | facility
  | general
deriving DecidableEq

/-- `UserIntent` dataclass of `agent.py` (fields `type`, `is_specific`,
`entity`, `timeframe`; the last two default to `None`). -/
structure UserIntent where
  type : QuestionType
  is_specific : Bool
  entity : Option String := none
  timeframe : Option String := none
deriving DecidableEq

/-- `IntentParser.pricing_patterns`: ordered entity pattern table
(Python dicts preserve insertion order). -/
def pricingPatterns : List (String × List String) :=
  [("co-working", ["coworking", "shared desk", "hot desk", "shared space", "per seat", "seat cost"]),
   ("private_office", ["private office", "private cabin", "dedicated office", "team room"]),
   ("day_pass", ["day pass", "daily pass", "trial", "visit day"]),
   ("virtual_office", ["virtual office", "business address", "mail service"]),
   ("meeting_room", ["meeting room", "conference room", "board room"]),
   ("parking", ["parking", "car parking", "vehicle parking"])]

/-- `IntentParser.location_patterns`. -/
def locationPatterns : List (String × List String) :=
  [("koramangala", ["koramangala", "koramangla"]),
   ("whitefield", ["whitefield", "itpl"]),
   ("electronic_city", ["electronic city", "ecity"]),
   ("indiranagar", ["indiranagar", "indira nagar"]),
   ("mg_road", ["mg road", "brigade road"])]

/-- `IntentParser.contact_patterns`. -/
def contactPatterns : List (String × List String) :=
  [("sales", ["sales", "visit", "tour", "demo", "book"]),
   ("support", ["support", "help", "issue", "problem", "complaint"]),
   ("corporate", ["corporate", "business", "enterprise", "company"]),
   ("general", ["contact", "phone", "email", "number", "reach"])]

/-- Keyword cascade list for pricing in `IntentParser.parse`. -/
def pricingCascadeKeywords : List String := ["price", "cost", "how much", "rate", "fee"]

/-- Keyword cascade list for contact in `IntentParser.parse`. -/
def contactCascadeKeywords : List String :=
  ["contact", "call", "email", "phone", "number", "visit", "tour"]

/-- Keyword cascade list for location in `IntentParser.parse`. -/
def locationCascadeKeywords : List String := ["where", "location", "address", "center", "branch"]

/-- Keyword cascade list for facility in `IntentParser.parse`. -/
def facilityCascadeKeywords : List String :=
  ["facility", "amenity", "service", "wifi", "internet", "parking", "meeting"]

/-- Python `any(word in question for word in kws)`. -/
def hasKw (kws : List String) (question : String) : Bool :=
  kws.any (fun k => strIn k question)

/-- First entry of an ordered pattern table one of whose phrases occurs in
the question (the `for ... break` loops of the `_parse_*_intent` methods);
`none` when no pattern matches. -/
def firstPatternMatch : List (String × List String) → String → Option String
  | [], _ => none
  | (e, pats) :: rest, question =>
    if pats.any (fun p => strIn p question) then some e else firstPatternMatch rest question

/-- `IntentParser._parse_pricing_intent` (receives the lower-cased question). -/
def IntentParser.parsePricingIntent (question : String) : UserIntent :=
  let entity := firstPatternMatch pricingPatterns question
  let timeframe :=
    if strIn "month" question || strIn "monthly" question then some "monthly"
    else if strIn "day" question || strIn "daily" question then some "daily"
    else if strIn "hour" question || strIn "hourly" question then some "hourly"
    else none
  { type := .pricing, is_specific := entity.isSome, entity := entity, timeframe := timeframe }

/-- `IntentParser._parse_contact_intent`. -/
def IntentParser.parseContactIntent (question : String) : UserIntent :=
  let entity := firstPatternMatch contactPatterns question
  { type := .contact, is_specific := entity.isSome, entity := entity }

/-- `IntentParser._parse_location_intent`. -/
def IntentParser.parseLocationIntent (question : String) : UserIntent :=
  let entity := firstPatternMatch locationPatterns question
  { type := .location, is_specific := entity.isSome, entity := entity }

/-- `IntentParser._parse_facility_intent`. -/
def IntentParser.parseFacilityIntent (question : String) : UserIntent :=
  let entity : Option String :=
    if strIn "parking" question then some "parking"
    else if strIn "wifi" question || strIn "internet" question then some "internet"
    else if strIn "meeting" question then some "meeting_room"
    else if strIn "24/7" question || strIn "24 hour" question then some "access_hours"
    else none
  { type := .facility, is_specific := entity.isSome, entity := entity }

/-- `IntentParser.parse`: lower-case the question, then an ordered cascade of
keyword-presence tests (pricing, contact, location, facility); the first
matching category wins, and with no match the intent is
`UserIntent(type=GENERAL, is_specific=False)`. -/
def IntentParser.parse (question : String) : UserIntent :=
  let ql := pyLower question
  if hasKw pricingCascadeKeywords ql then IntentParser.parsePricingIntent ql
  else if hasKw contactCascadeKeywords ql then IntentParser.parseContactIntent ql
  else if hasKw locationCascadeKeywords ql then IntentParser.parseLocationIntent ql
  else if hasKw facilityCascadeKeywords ql then IntentParser.parseFacilityIntent ql
  else { type := .general, is_specific := false }

/-!
`backend/core/agent.py` — BizzHubKnowledgeBase

The nested Python dictionary returned by `_load_knowledge_base` is embedded
as association lists of `KBVal` values (Python dicts preserve insertion
order, so an association list is a faithful image; all literal keys in the
source are distinct within each dict).
-/

/-- A value in the knowledge-base dictionary: a string, a boolean, a list of
strings, or a nested dictionary. -/
inductive KBVal where
  | s (v : String)
  | b (v : Bool)
  | list (vs : List String)
  | table (entries : List (String × KBVal))

/-- Dictionary lookup `t[k]` as an `Option` (association-list semantics). -/
def tblGet (t : List (String × KBVal)) (k : String) : Option KBVal :=
  (t.find? (fun p => p.1 = k)).map (fun p => p.2)

/-- Python `k in t` for a dictionary. -/
def tblHas (t : List (String × KBVal)) (k : String) : Bool :=
  t.any (fun p => p.1 = k)

/-- `data["pricing"]` of `BizzHubKnowledgeBase._load_knowledge_base`. -/
def kbPricing : List (String × KBVal) :=
  [("co-working", .table
     [("description", .s "Hot desk in shared workspace"),
      ("monthly", .s "₹8,000 - ₹12,000"),
      ("daily", .s "₹800 - ₹1,200"),
      ("includes", .list ["Workspace access", "High-speed WiFi", "Tea/Coffee", "Community events",
                          "Basic printing"])]),
   ("dedicated_desk", .table
     [("description", .s "Personal dedicated desk"),
      ("monthly", .s "₹10,000 - ₹15,000"),
      ("includes", .list ["Personal desk", "24/7 access", "Lockable storage", "Meeting room credits",
                          "Priority support"])]),
   ("private_cabin_2p", .table
     [("description", .s "Private office for 2 people"),
      ("monthly", .s "₹25,000 - ₹30,000"),
      ("includes", .list ["Private locked room", "2 ergonomic chairs", "Custom branding",
                          "2 meeting room hours/day"])]),
   ("private_cabin_4p", .table
     [("description", .s "Private office for 4 people"),
      ("monthly", .s "₹35,000 - ₹40,000"),
      ("includes", .list ["Private locked room", "4 ergonomic chairs", "Custom layout",
                          "4 meeting room hours/day"])]),
   ("day_pass", .table
     [("description", .s "Daily workspace access"),
      ("daily", .s "₹800 - ₹1,200"),
      ("includes", .list ["Basic workspace", "WiFi", "Tea/Coffee", "Common areas"])]),
   ("virtual_office", .table
     [("description", .s "Business address & mail services"),
      ("monthly", .s "₹2,000 - ₹5,000"),
      ("includes", .list ["Business address", "Mail handling", "Meeting room discount", "Call answering"])]),
   ("parking", .table
     [("description", .s "Dedicated parking spot"),
      ("monthly", .s "₹800 - ₹2,000"),
      ("variations", .table
        [("koramangala", .s "₹1,000/month"),
         ("whitefield", .s "₹1,500/month"),
         ("electronic_city", .s "₹800/month"),
         ("indiranagar", .s "₹1,200/month"),
         ("mg_road", .s "₹2,000/month")])]),
   ("meeting_room", .table
     [("description", .s "Meeting/conference room"),
      ("hourly", .s "₹500 - ₹1,500"),
      ("variations", .table
        [("4_seats", .s "₹500/hour"),
         ("8_seats", .s "₹800/hour"),
         ("12_seats", .s "₹1,200/hour"),
         ("board_room", .s "₹1,500/hour")])])]

/-- `data["contact"]["general"]`. -/
def kbContactGeneral : List (String × KBVal) :=
  [("phone", .s "080-4111-1000"),
   ("email", .s "info@bizzhub.com"),
   ("hours", .s "9 AM - 7 PM"),
   ("website", .s "https://www.bizzhubworkspaces.com")]

/-- `data["contact"]["centers"]`. -/
def kbContactCenters : List (String × KBVal) :=
  [("koramangala", .table [("phone", .s "080-4111-2222"), ("manager", .s "Rajesh")]),
   ("whitefield", .table [("phone", .s "080-4111-3333"), ("manager", .s "Meera")]),
   ("electronic_city", .table [("phone", .s "080-4111-4444"), ("manager", .s "Arjun")]),
   ("indiranagar", .table [("phone", .s "080-4111-5555"), ("manager", .s "Sanjay")]),
   ("mg_road", .table [("phone", .s "080-4111-6666"), ("manager", .s "Priya")])]

/-- `data["contact"]`. -/
def kbContact : List (String × KBVal) :=
  [("general", .table kbContactGeneral),
   ("sales", .table
     [("phone", .s "080-4111-2000"),
      ("email", .s "sales@bizzhub.com"),
      ("person", .s "Priya Patel"),
      ("hours", .s "9 AM - 8 PM"),
      ("whatsapp", .s "+91-9876543210")]),
   ("support", .table
     [("phone", .s "080-4111-3000"),
      ("email", .s "support@bizzhub.com"),
      ("hours", .s "24/7"),
      ("emergency", .s "+91-9000000000")]),
   ("centers", .table kbContactCenters)]

/-- `data["locations"]`. -/
def kbLocations : List (String × KBVal) :=
  [("koramangala", .s "3rd Block, 80ft Road, Koramangala"),
   ("whitefield", .s "ITPL Main Road, Whitefield"),
   ("electronic_city", .s "Phase 1, Near Infosys, Electronic City"),
   ("indiranagar", .s "100ft Road, Indiranagar"),
   ("mg_road", .s "Brigade Road Cross, MG Road")]

/-- `data["facilities"]`. -/
def kbFacilities : List (String × KBVal) :=
  [("internet", .table
     [("description", .s "High-speed dedicated fiber"),
      ("speed", .s "100 Mbps"),
      ("included", .b true)]),
   ("parking", .table
     [("description", .s "Secure parking facilities"),
      ("availability", .s "All centers"),
      ("cost", .s "₹800 - ₹2,000/month")]),
   ("meeting_rooms", .table
     [("description", .s "Fully equipped meeting spaces"),
      ("sizes", .list ["4-seater", "8-seater", "12-seater", "Board room"]),
      ("cost", .s "₹500 - ₹1,500/hour")]),
   ("access_hours", .table
     [("description", .s "Center access hours"),
      ("co_working", .s "8 AM - 10 PM"),
      ("dedicated_desk", .s "24/7"),
      ("private_office", .s "24/7")]),
   ("additional", .list
     ["Pantry with tea/coffee",
      "Printing & scanning (100 pages free)",
      "Mail handling services",
      "Reception support",
      "Community events",
      "IT support (basic included)"])]

/-- The timeframe-filtering body of `BizzHubKnowledgeBase.get_pricing`
(the code after `item = self.data["pricing"][entity].copy()`).  Python
subscripts that could raise `KeyError` (`item["description"]`) and the
implicit requirement that `data["pricing"][entity]` be a dict are embedded
as `Except` error branches; `if timeframe and timeframe in item` treats
`None` and the empty string as falsy.  (In the dict literal built for
`filtered`, a `timeframe` equal to `"description"` would collapse onto the
first key with an identical value; the association list keeps both pairs,
which agrees with the dict under lookup.) -/
def BizzHubKnowledgeBase.pricingFilter (item : List (String × KBVal)) (timeframe : Option String) :
    Except PyError (List (String × KBVal)) :=
  match timeframe with
  | some tf =>
    if tf ≠ "" && tblHas item tf then
      match tblGet item "description", tblGet item tf with
      | some desc, some tfv =>
        let filtered := [("description", desc), (tf, tfv),
                         ("includes", (tblGet item "includes").getD (.list []))]
        let filtered :=
          match tblGet item "variations" with
          | some vv => filtered ++ [("variations", vv)]
          | none => filtered
        .ok filtered
      | _, _ => .error (.keyError "description")
    else .ok item
  | none => .ok item

/-- `BizzHubKnowledgeBase.get_pricing(entity, timeframe=None)` proper:
look up the entity and apply the timeframe filter above. -/
def BizzHubKnowledgeBase.get_pricing (entity : String) (timeframe : Option String) :
    Except PyError (List (String × KBVal)) :=
  match tblGet kbPricing entity with
  | some (.table item) => BizzHubKnowledgeBase.pricingFilter item timeframe
  | some _ => .error (.typeError "argument of type is not iterable")
  | none => .ok []

/-- `BizzHubKnowledgeBase.get_contact(entity="general")`. -/
def BizzHubKnowledgeBase.get_contact (entity : String) : Except PyError KBVal :=
  match tblGet kbContact entity with
  | some v => .ok v
  | none =>
    match tblGet kbContact "general" with
    | some v => .ok v
    | none => .error (.keyError "general")

/-- `BizzHubKnowledgeBase.get_location(center=None)`.  `if center and center
in self.data["locations"]` treats `None` and `""` as falsy; in the specific
branch the source additionally subscripts
`self.data["contact"]["centers"][center]`, which would raise `KeyError` for
a location key missing from the centers dict. -/
def BizzHubKnowledgeBase.get_location (center : Option String) : Except PyError KBVal :=
  match center with
  | some c =>
    if c ≠ "" && tblHas kbLocations c then
      match tblGet kbLocations c with
      | some addr =>
        match tblGet kbContactCenters c with
        | some cv => .ok (.table [(c, .table [("address", addr), ("contact", cv)])])
        | none => .error (.keyError c)
      | none => .error (.keyError c)
    else .ok (.table kbLocations)
  | none => .ok (.table kbLocations)

/-- `BizzHubKnowledgeBase.get_facility(facility=None)`. -/
def BizzHubKnowledgeBase.get_facility (facility : Option String) : Except PyError KBVal :=
  match facility with
  | some f =>
    if f ≠ "" && tblHas kbFacilities f then
      match tblGet kbFacilities f with
      | some v => .ok v
      | none => .ok (.table kbFacilities)
    else .ok (.table kbFacilities)
  | none => .ok (.table kbFacilities)

/-!
`backend/core/rag_system.py` — FAQRAGSystem

`TfidfVectorizer.fit_transform` returns a `scipy.sparse.csr_matrix`; the
model below carries only the fitted corpus, because the code raises before
reading any numeric content of the matrix (see `SparseMatrix.anyAttr`).
-/

/-- `FAQ` dataclass (the unused `embeddings` field is omitted). -/
structure FAQ where
  question : String
  answer : String
  category : String := "general"
deriving DecidableEq

/-- Model of the scipy sparse matrix produced by
`TfidfVectorizer.fit_transform(questions)`: only the fitted corpus is
carried; no numeric content of the matrix is ever read by the code. -/
structure SparseMatrix where
  corpus : List String

/-- Python attribute lookup `self.faq_vectors.any()` in
`_find_similar_faqs`.  `scipy.sparse` matrices define no `any` method
(emptiness is checked with `nnz`/`count_nonzero` there), and
`spmatrix.__getattr__` raises `AttributeError` for unknown names; when
`faq_vectors` is `None` the lookup on `None` raises `AttributeError` as
well.  The expression therefore never produces a value, which the return
type `Except PyError Empty` records. -/
def SparseMatrix.anyAttr (_m : Option SparseMatrix) : Except PyError Empty :=
  .error (.attributeError "any not found")

/-- The twelve FAQs of `FAQRAGSystem._load_default_faqs` (adjacent Python
string literals concatenated). -/
def defaultFaqs : List FAQ :=
  [⟨"How do I create an invoice?",
    "You can create an invoice by providing product details like quantity and price. For example: \x272x T-shirts @ 500\x27 creates an invoice with 2 T-shirts at Rs. 500 each.",
    "billing"⟩,
   ⟨"What information do I need for an invoice?",
    "You need at least one product item, customer name, and customer email. Additional details like GST number, shipping fee, and discount codes can be added.",
    "billing"⟩,
   ⟨"How do I add items to my invoice?",
    "You can add items by mentioning quantity, name, and price. Examples: \x273 shirts @ 499\x27, \x271 laptop 12999\x27, \x272 books at 299 each\x27.",
    "billing"⟩,
   ⟨"Can I update my invoice after creation?",
    "Yes, you can continue adding items or updating details in the same conversation. The system remembers your invoice draft until it\x27s finalized.",
    "billing"⟩,
   ⟨"How do I download my invoice as PDF?",
    "Once your invoice is generated, you\x27ll see a download link in the chat interface. The PDF is automatically created when your invoice is finalized.",
    "pdf"⟩,
   ⟨"What is GST and how is it calculated?",
    "GST (Goods and Services Tax) is calculated as a percentage of the subtotal. By default, it\x27s set to 18%, but you can specify a different rate.",
    "tax"⟩,
   ⟨"Can I apply discounts to my invoice?",
    "Yes, you can apply discounts by mentioning a discount code or amount. Examples: \x27Apply 10% discount\x27, \x27Use code SAVE10\x27, \x27Discount of 500\x27.",
    "billing"⟩,
   ⟨"How do I include shipping charges?",
    "Shipping charges are automatically added to your invoice. You can specify shipping fees like: \x27Shipping: 100\x27 or \x27Delivery charge: 50\x27.",
    "billing"⟩,
   ⟨"What payment methods do you accept?",
    "This system generates invoices for your records. Actual payment methods depend on the merchant you\x27re purchasing from.",
    "payment"⟩,
   ⟨"How do I cancel my invoice?",
    "Invoices are generated only when complete. If you want to start fresh, just begin a new conversation or say \x27reset\x27.",
    "billing"⟩,
   ⟨"Can I send the invoice to someone else?",
    "Yes, once generated, you can download the PDF and share it. The system also stores invoices by ID for future reference.",
    "pdf"⟩,
   ⟨"How long are my invoices stored?",
    "Invoices are stored in our secure database. You can retrieve them using the invoice ID provided after generation.",
    "storage"⟩]

/-- `FAQRAGSystem._build_index`: with no FAQs `faq_vectors` is `None`;
otherwise `fit_transform` over the question list.  (The `except ValueError` branch of the source also sets `faq_vectors = None` when the corpus
yields an empty vocabulary; either way the subsequent `.any()` attribute
lookup fails — see `SparseMatrix.anyAttr` — so the distinction is not
observable by any function modelled here.) -/
def FAQRAGSystem.buildIndex (faqs : List FAQ) : Option SparseMatrix :=
  if faqs.isEmpty then none
  else some ⟨faqs.map (fun f => f.question)⟩

/-- Mutable state of a `FAQRAGSystem` instance. -/
structure FAQRAGSystem where
  faqs : List FAQ
  faq_vectors : Option SparseMatrix

/-- `FAQRAGSystem.__init__`: load the default FAQs, then build the index. -/
def FAQRAGSystem.init : FAQRAGSystem :=
  { faqs := defaultFaqs, faq_vectors := FAQRAGSystem.buildIndex defaultFaqs }

/-- `FAQRAGSystem.add_faq`: append the new entry and rebuild the index. -/
def FAQRAGSystem.add_faq (st : FAQRAGSystem) (question answer category : String) : FAQRAGSystem :=
  let faqs := st.faqs ++ [{ question := question, answer := answer, category := category }]
  { faqs := faqs, faq_vectors := FAQRAGSystem.buildIndex faqs }

/-- `FAQRAGSystem._find_similar_faqs(query, top_k)`.  The first operand
of the guard, `self.faq_vectors.any()` raises `AttributeError`
(`SparseMatrix.anyAttr`), so the method raises on every input before the
query is inspected or any similarity is computed; the remainder of the body
(query vectorization, cosine similarity, argsort top-k, the 0.1 filter) is
unreachable, which the `Empty` elimination makes explicit. -/
def FAQRAGSystem.findSimilarFaqs (st : FAQRAGSystem) (_query : String) (_topK : Nat) :
    Except PyError (List (FAQ × ℚ)) :=
  match SparseMatrix.anyAttr st.faq_vectors with
  | .error e => .error e
  | .ok h => h.elim

/-- `FAQRAGSystem.get_answer(query)`: call `_find_similar_faqs(query,
top_k=2)` and accept the best candidate only above the 0.3 threshold
(`0.3` transcribed as the rational `3/10`). -/
def FAQRAGSystem.get_answer (st : FAQRAGSystem) (query : String) :
    Except PyError (Option String × Bool) :=
  match st.findSimilarFaqs query 2 with
  | .error e => .error e
  | .ok similar =>
    match similar with
    | (best, confidence) :: _ =>
      if (3 : ℚ)/10 < confidence then .ok (some best.answer, true) else .ok (none, false)
    | [] => .ok (none, false)

/-!
`backend/core/llm_manager.py` — ToolCall, tool registry, LLMManager

Module-level imports of `llm_manager.py` are `os`, `time`,
`google.generativeai`, `typing`, `enum`, `requests`, `openai` and
`convert_currency`; the name `re` is bound only locally inside
`register_tool` and `_call_gemini` and is therefore unbound in the module
namespace where `ToolCall.execute` runs.

External effects are oracle parameters: `convert` for the
`convert_currency` network client (which may raise `ValueError` /
`RuntimeError`), `now` for `time.strftime`, `jsonLoads` for `json.loads`
on a matched arguments string, and per-provider reply oracles for the
model API calls.
-/

/-- `LLMProvider` enum (iteration order `GEMINI`, `OPENAI`, `LOCAL`). -/
inductive LLMProvider where
  | gemini
  | openai
  | localProvider
deriving DecidableEq

/-- `LLMProvider.value`. -/
def LLMProvider.value : LLMProvider → String
  | .gemini => "gemini"
  | .openai => "openai"
  | .localProvider => "local"

/-- A JSON-style argument value in the `arguments` dict of a tool call. -/
inductive ArgVal where
  | num (q : ℚ)
  | str (s : String)
deriving DecidableEq

/-- The result of executing a tool (`Any` in the source: a number from
`convert_currency` or a string). -/
inductive ToolResult where
  | num (q : ℚ)
  | str (s : String)
deriving DecidableEq

/-- `dict.get(key, default)` on an arguments dict. -/
def argGet (args : List (String × ArgVal)) (key : String) (dflt : ArgVal) : ArgVal :=
  match args.find? (fun p => p.1 = key) with
  | some p => p.2
  | none => dflt

/-- `ToolCall` (name plus arguments dict). -/
structure ToolCall where
  name : String
  arguments : List (String × ArgVal)

/-- `ToolCall.execute`, with `convert` the `convert_currency` oracle and
`now` the `time.strftime` clock value.  In the `"calculate"` branch the
source reads `expression` and then evaluates
`re.match(r"^[0-9+\-*/().\s]+$", expression)` inside `try`; `re` is unbound
at module level (see the section comment), so this raises `NameError`,
which the bare `except:` catches, and the branch returns the string
`"Calculation error"` for every expression — the whitelist test and the
`eval` call are never reached. -/
def ToolCall.execute (convert : ArgVal → ArgVal → ArgVal → Except PyError ℚ)
    (now : String) (tc : ToolCall) : Except PyError ToolResult :=
  if tc.name = "currency_converter" then
    match convert (argGet tc.arguments "amount" (.num 0))
        (argGet tc.arguments "from_currency" (.str "USD"))
        (argGet tc.arguments "to_currency" (.str "INR")) with
    | .error e => .error e
    | .ok q => .ok (.num q)
  else if tc.name = "get_current_time" then
    .ok (.str now)
  else if tc.name = "calculate" then
    let _expression := argGet tc.arguments "expression" (.str "")
    .ok (.str "Calculation error")
  else
    .ok (.str ("Unknown tool: " ++ tc.name))

/-- Opaque model of a Python callable (the `func` a registration wrapper
would store); no wrapper is ever applied in the source, so no value of this
type is ever stored. -/
inductive PyFunc where
  | mk

/-- A tool schema dict literal `{description, parameters}` as passed to
`register_tool`. -/
structure ToolSchema where
  description : String
  parameters : KBVal

/-- A registry entry `{"function": func, "schema": schema}`. -/
structure RegisteredTool where
  fn : PyFunc
  schema : ToolSchema

/-- The `tool_registry` dict. -/
abbrev Registry := List (String × RegisteredTool)

/-- Dict assignment `tool_registry[name] = {...}` (replace or append). -/
def Registry.insertTool (reg : Registry) (name : String) (f : PyFunc) (schema : ToolSchema) :
    Registry :=
  if reg.any (fun p => p.1 = name) then
    reg.map (fun p => if p.1 = name then (name, ⟨f, schema⟩) else p)
  else reg ++ [(name, ⟨f, schema⟩)]

/-- `LLMManager.register_tool(name, schema)`: the method only defines and
returns the decorator `wrapper`; it does not itself touch `tool_registry`.
The registry is updated only when the returned wrapper is later applied to
a function, which the second component models. -/
def LLMManager.register_tool (reg : Registry) (name : String) (schema : ToolSchema) :
    Registry × (PyFunc → Registry → Registry) :=
  (reg, fun f r => Registry.insertTool r name f schema)

/-- Schema dict for `currency_converter` in `_register_default_tools`. -/
def currencyConverterSchema : ToolSchema :=
  { description := "Convert currency amounts between different currencies",
    parameters := .table
      [("type", .s "object"),
       ("properties", .table
         [("amount", .table [("type", .s "number"), ("description", .s "Amount to convert")]),
          ("from_currency", .table
            [("type", .s "string"), ("description", .s "Source currency code (e.g., USD)")]),
          ("to_currency", .table
            [("type", .s "string"), ("description", .s "Target currency code (e.g., EUR)")])]),
       ("required", .list ["amount", "from_currency", "to_currency"])] }

/-- Schema dict for `get_current_time` in `_register_default_tools`. -/
def getCurrentTimeSchema : ToolSchema :=
  { description := "Get the current time and date",
    parameters := .table [("type", .s "object"), ("properties", .table [])] }

/-- Schema dict for `calculate` in `_register_default_tools`. -/
def calculateSchema : ToolSchema :=
  { description := "Perform mathematical calculations",
    parameters := .table
      [("type", .s "object"),
       ("properties", .table
         [("expression", .table
           [("type", .s "string"),
            ("description", .s "Mathematical expression to evaluate")])]),
       ("required", .list ["expression"])] }

/-- `LLMManager._register_default_tools`: three calls to `register_tool`,
each of whose returned wrapper is discarded (`self.register_tool(name,
schema)` is a bare expression statement), so each call leaves the registry
exactly as it was. -/
def LLMManager.registerDefaultTools (reg : Registry) : Registry :=
  let reg1 := (LLMManager.register_tool reg "currency_converter" currencyConverterSchema).1
  let reg2 := (LLMManager.register_tool reg1 "get_current_time" getCurrentTimeSchema).1
  (LLMManager.register_tool reg2 "calculate" calculateSchema).1

/-- One element of the list built by `get_available_tools`:
`{"type": "function", "function": {"name": ..., "description": ...,
"parameters": ...}}` (the `ty` field holds the outer `"type"` entry). -/
structure ToolListing where
  ty : String
  name : String
  description : String
  parameters : KBVal

/-- `LLMManager.get_available_tools`. -/
def LLMManager.get_available_tools (reg : Registry) : List ToolListing :=
  reg.map (fun p =>
    { ty := "function", name := p.1,
      description := p.2.schema.description, parameters := p.2.schema.parameters })

/-!
The tool-call pattern search of `_call_gemini`

`_call_gemini` scans the reply text with
`re.search` with the raw pattern
`\{"tool":\s*"([^"]+)"(?:,\s*"arguments":\s*(\{[^}]+\}))?\}` over `response_text`.
The functions below implement that search: `re.search` tries each start
position from the left; at a position the pattern is a literal
`{"tool":`, optional whitespace, a quoted nonempty run of non-quote
characters (group 1), an optional group `,` + whitespace + `"arguments":`
+ whitespace + a braced nonempty run of non-brace characters (group 2,
captured with its braces), then a closing brace.  Each quantifier here is
deterministic: `[^"]+` and `[^}]+` cannot consume their closing
delimiter, `\s*` is followed by a non-space literal, and when the optional
group has matched, the following character is `,`-initial text so the
alternative of skipping the group and matching `}` directly fails as well —
greedy matching without backtracking computes the same result.
-/

/-- The character `{` (written via its code point). -/
def lbrace : Char := Char.ofNat 123

/-- The character `}` (written via its code point). -/
def rbrace : Char := Char.ofNat 125

/-- The whitespace characters matched by `\s` (ASCII; the concrete reply
texts evaluated in this file contain no exotic whitespace). -/
def wsChars : List Char := [' ', '\t', '\n', '\r', Char.ofNat 11, Char.ofNat 12]

/-- Consume leading `\s*`. -/
def skipWs : List Char → List Char
  | [] => []
  | c :: cs => if c ∈ wsChars then skipWs cs else c :: cs

/-- Consume an exact literal, returning the rest on success. -/
def matchLit : List Char → List Char → Option (List Char)
  | [], cs => some cs
  | _ :: _, [] => none
  | l :: ls, c :: cs => if l = c then matchLit ls cs else none

/-- Split off the longest run of characters different from `x`. -/
def spanNe (x : Char) : List Char → List Char × List Char
  | [] => ([], [])
  | c :: cs =>
    if c = x then ([], c :: cs)
    else
      let p := spanNe x cs
      (c :: p.1, p.2)

/-- Match the optional group `,\s*"arguments":\s*(\{[^}]+\})`, returning
the captured group-2 string (braces included) and the rest. -/
def matchArgsGroup (cs : List Char) : Option (String × List Char) :=
  match matchLit [','] cs with
  | none => none
  | some cs1 =>
    match matchLit ("\"arguments\":".toList) (skipWs cs1) with
    | none => none
    | some cs3 =>
      match matchLit [lbrace] (skipWs cs3) with
      | none => none
      | some cs5 =>
        match spanNe rbrace cs5 with
        | ([], _) => none
        | (inner, c :: rest) =>
          if c = rbrace then some ((lbrace :: (inner ++ [rbrace])).asString, rest) else none
        | (_, []) => none

/-- Try the whole pattern at the current position, returning
(group 1, group 2?) on success. -/
def matchToolAt (cs : List Char) : Option (String × Option String) :=
  match matchLit (lbrace :: "\"tool\":".toList) cs with
  | none => none
  | some cs1 =>
    match matchLit ['"'] (skipWs cs1) with
    | none => none
    | some cs3 =>
      match spanNe '"' cs3 with
      | ([], _) => none
      | (nm, c :: cs4) =>
        if c = '"' then
          match matchArgsGroup cs4 with
          | some (args, rest) =>
            match rest with
            | r :: _ => if r = rbrace then some (nm.asString, some args) else none
            | [] => none
          | none =>
            match cs4 with
            | r :: _ => if r = rbrace then some (nm.asString, none) else none
            | [] => none
        else none
      | (_, []) => none

/-- `re.search`: the leftmost position where the pattern matches. -/
def findToolMatch : List Char → Option (String × Option String)
  | [] => none
  | c :: cs =>
    match matchToolAt (c :: cs) with
    | some m => some m
    | none => findToolMatch cs

/-- A record in the `tool_calls` list of a provider result. -/
structure ToolCallRecord where
  name : String
  arguments : List (String × ArgVal)
  result : ToolResult

/-- The dict returned by `_call_gemini` / `_call_openai` /
`generate_response`. -/
structure CallResult where
  content : String
  tool_calls : List ToolCallRecord
  provider : String

/-- Network oracle for `_call_gemini`: the text of each
`model.generate_content` reply, `none` meaning the call raised. -/
structure GeminiOracle where
  reply : Option String
  followupReply : Option String

/-- Network oracle for `_call_openai`: the message of the first reply (content
plus optional parsed `function_call`), `none` meaning the call raised, and
the content of the follow-up call. -/
structure OpenAIFunctionCall where
  name : String
  arguments : List (String × ArgVal)

/-- The `message` of an OpenAI chat completion. -/
structure OpenAIMessage where
  content : String
  function_call : Option OpenAIFunctionCall

/-- Oracle for the two OpenAI API calls of `_call_openai`. -/
structure OpenAIOracle where
  message : Option OpenAIMessage
  followupContent : Option String

/-- Python truthiness of the `tools` argument (`None` and `[]` are falsy,
a non-empty list is truthy). -/
def toolsTruthy : Option (List ToolListing) → Bool
  | some (_ :: _) => true
  | _ => false

/-- `LLMManager._call_gemini(prompt, tools)`.  The whole body is inside
`try ... except: return None`.  When `tools` is truthy the reply text is
searched for the tool-call pattern; a match with an arguments group runs
`json.loads` (`jsonLoads` oracle; `none` = raise), executes the tool and
issues the follow-up call whose text becomes the content.  When the
pattern does not match (or matches without an arguments group) no `return`
statement is reached inside the `if tools:` branch, so the method falls
off the end of the `try` block and returns `None`.  When `tools` is falsy
the reply is returned as-is with provider `"gemini"`. -/
def LLMManager.callGemini (jsonLoads : String → Option (List (String × ArgVal)))
    (convert : ArgVal → ArgVal → ArgVal → Except PyError ℚ) (now : String)
    (tools : Option (List ToolListing)) (o : GeminiOracle) : Option CallResult :=
  match o.reply with
  | none => none
  | some text =>
    if toolsTruthy tools then
      match findToolMatch text.toList with
      | some (toolName, some argsStr) =>
        match jsonLoads argsStr with
        | none => none
        | some args =>
          match ToolCall.execute convert now { name := toolName, arguments := args } with
          | .error _ => none
          | .ok toolResult =>
            match o.followupReply with
            | none => none
            | some fText =>
              some { content := fText,
                     tool_calls := [{ name := toolName, arguments := args, result := toolResult }],
                     provider := "gemini" }
      | _ => none
    else
      some { content := text, tool_calls := [], provider := "gemini" }

/-- `LLMManager._call_openai(prompt, tools)` (body inside
`try ... except: return None`).  With truthy `tools` and a
`function_call` in the message, the tool is executed (the source parses the
arguments string with `eval`; a parse failure is one of the ways the
`message` oracle can be `none`) and the content of the follow-up call is
returned with the structured tool record; otherwise the message content is
returned as-is with provider `"openai"`. -/
def LLMManager.callOpenai (convert : ArgVal → ArgVal → ArgVal → Except PyError ℚ) (now : String)
    (tools : Option (List ToolListing)) (o : OpenAIOracle) : Option CallResult :=
  match o.message with
  | none => none
  | some msg =>
    if toolsTruthy tools then
      match msg.function_call with
      | some fc =>
        match ToolCall.execute convert now { name := fc.name, arguments := fc.arguments } with
        | .error _ => none
        | .ok toolResult =>
          match o.followupContent with
          | none => none
          | some fText =>
            some { content := fText,
                   tool_calls := [{ name := fc.name, arguments := fc.arguments, result := toolResult }],
                   provider := "openai" }
      | none => some { content := msg.content, tool_calls := [], provider := "openai" }
    else
      some { content := msg.content, tool_calls := [], provider := "openai" }

/-- State of an `LLMManager` after `__init__`. -/
structure ManagerState where
  providers : List LLMProvider
  active_provider : Option LLMProvider
  tool_registry : Registry

/-- `LLMManager.__init__` / `_setup_providers` /
`_register_default_tools`, as a function of which API-key environment
variables are set: a Google key registers Gemini and makes it active; an
OpenAI key registers OpenAI and makes it active only if nothing is active
yet (`if not self.active_provider`); `LOCAL` is never registered. -/
def LLMManager.init (hasGeminiKey hasOpenaiKey : Bool) : ManagerState :=
  let providers : List LLMProvider := if hasGeminiKey then [.gemini] else []
  let active : Option LLMProvider := if hasGeminiKey then some .gemini else none
  let providers := if hasOpenaiKey then providers ++ [.openai] else providers
  let active := if hasOpenaiKey && active.isNone then some .openai else active
  { providers := providers, active_provider := active,
    tool_registry := LLMManager.registerDefaultTools [] }

/-- The terminal fallback dict of `generate_response`
(`prompt[:100]` is `String.take 100`, both counting code points). -/
def LLMManager.fallbackResponse (prompt : String) : CallResult :=
  { content := "I\x27m sorry, but I couldn\x27t process your request. The input was: "
      ++ prompt.take 100 ++ "...",
    tool_calls := [], provider := "fallback" }

/-- The `tools` argument computed at the top of `generate_response`:
`self.get_available_tools() if use_tools else None`. -/
def LLMManager.toolsArg (st : ManagerState) (use_tools : Bool) : Option (List ToolListing) :=
  if use_tools then some (LLMManager.get_available_tools st.tool_registry) else none

/-- `LLMManager.generate_response(prompt, use_tools=True)`: try the active
provider first (Gemini then OpenAI guards), then loop over
`LLMProvider` in declaration order trying every provider different from
the active one.  In the `LOCAL` iteration of the loop neither branch of the
`if/elif` assigns `result`; in every state reachable from
`LLMManager.init`, `LOCAL` is not in `providers`, and whenever the loop is
reached any previously bound `result` is `None` (a truthy one would have
been returned already), so that iteration returns nothing and is modelled
as `none`.  If everything fails, the fallback dict is returned.  Each
provider is called at most once per invocation, so one oracle per provider
suffices. -/
def LLMManager.generate_response (st : ManagerState) (use_tools : Bool)
    (jsonLoads : String → Option (List (String × ArgVal)))
    (convert : ArgVal → ArgVal → ArgVal → Except PyError ℚ) (now : String)
    (prompt : String) (g : GeminiOracle) (oa : OpenAIOracle) : CallResult :=
  let tools := LLMManager.toolsArg st use_tools
  let gemR := LLMManager.callGemini jsonLoads convert now tools g
  let opnR := LLMManager.callOpenai convert now tools oa
  match (if st.active_provider = some .gemini ∧ .gemini ∈ st.providers then gemR else none) with
  | some r => r
  | none =>
    match (if st.active_provider = some .openai ∧ .openai ∈ st.providers then opnR else none) with
    | some r => r
    | none =>
      match (if some .gemini ≠ st.active_provider ∧ .gemini ∈ st.providers then gemR
             else none) with
      | some r => r
      | none =>
        match (if some .openai ≠ st.active_provider ∧ .openai ∈ st.providers then opnR
               else none) with
        | some r => r
        | none => LLMManager.fallbackResponse prompt

/-- The provider-indexed call attempted by `generate_response`: `GEMINI`
maps to `_call_gemini`, `OPENAI` to `_call_openai`, and `LOCAL` to no call
at all (no branch of the `if/elif` in the fallback loop handles it). -/
def LLMManager.callFor (jsonLoads : String → Option (List (String × ArgVal)))
    (convert : ArgVal → ArgVal → ArgVal → Except PyError ℚ) (now : String)
    (tools : Option (List ToolListing)) (g : GeminiOracle) (oa : OpenAIOracle) :
    LLMProvider → Option CallResult
  | .gemini => LLMManager.callGemini jsonLoads convert now tools g
  | .openai => LLMManager.callOpenai convert now tools oa
  | .localProvider => none

/-!
Association-list dictionary lemmas
-/

theorem tblGet_mem {t : List (String × KBVal)} {k : String} {v : KBVal}
    (h : tblGet t k = some v) : ∃ p, p ∈ t ∧ p.1 = k ∧ p.2 = v := by
  unfold tblGet at h
  cases hf : t.find? (fun p => p.1 = k) with
  | none => rw [hf] at h; cases h
  | some q =>
    rw [hf] at h
    refine ⟨q, List.mem_of_find?_eq_some hf, ?_, ?_⟩
    · have hq := List.find?_some hf
      simp only [decide_eq_true_eq] at hq
      exact hq
    · cases h; rfl

theorem tblHas_of_get_some {t : List (String × KBVal)} {k : String} {v : KBVal}
    (h : tblGet t k = some v) : tblHas t k = true := by
  obtain ⟨p, hp, hk, _⟩ := tblGet_mem h
  unfold tblHas
  rw [List.any_eq_true]
  exact ⟨p, hp, decide_eq_true hk⟩

theorem tblGet_none_of_not_has {t : List (String × KBVal)} {k : String}
    (h : tblHas t k = false) : tblGet t k = none := by
  cases hg : tblGet t k with
  | none => rfl
  | some v => rw [tblHas_of_get_some hg] at h; cases h

theorem tblGet_some_of_has {t : List (String × KBVal)} {k : String}
    (h : tblHas t k = true) : ∃ v, tblGet t k = some v := by
  cases hg : tblGet t k with
  | some v => exact ⟨v, rfl⟩
  | none =>
    exfalso
    unfold tblHas at h
    rw [List.any_eq_true] at h
    obtain ⟨p, hp, hk⟩ := h
    unfold tblGet at hg
    cases hf : t.find? (fun p => p.1 = k) with
    | some q => rw [hf] at hg; cases hg
    | none =>
      have := List.find?_eq_none.mp hf p hp
      rw [hk] at this
      cases this rfl

/-!
Totality of the knowledge-base accessors
-/

theorem pricingFilter_total (item : List (String × KBVal)) (tf : Option String)
    (hdesc : ∃ d, tblGet item "description" = some d) :
    ∃ r, BizzHubKnowledgeBase.pricingFilter item tf = .ok r := by
  obtain ⟨d, hd⟩ := hdesc
  unfold BizzHubKnowledgeBase.pricingFilter
  cases tf with
  | none => exact ⟨item, rfl⟩
  | some s =>
    dsimp only
    by_cases hc : (decide (s ≠ "") && tblHas item s) = true
    · rw [if_pos hc]
      have hhas : tblHas item s = true := ((Bool.and_eq_true _ _).mp hc).2
      obtain ⟨w, hw⟩ := tblGet_some_of_has hhas
      rw [hd, hw]
      exact ⟨_, rfl⟩
    · rw [if_neg hc]
      exact ⟨item, rfl⟩

theorem get_pricing_total (entity : String) (tf : Option String) :
    ∃ r, BizzHubKnowledgeBase.get_pricing entity tf = .ok r := by
  unfold BizzHubKnowledgeBase.get_pricing
  cases hg : tblGet kbPricing entity with
  | none => exact ⟨[], rfl⟩
  | some v =>
    obtain ⟨p, hmem, hk, hv⟩ := tblGet_mem hg
    simp only [kbPricing, List.mem_cons, List.not_mem_nil, or_false] at hmem
    rcases hmem with h|h|h|h|h|h|h|h <;>
      (subst h; rw [← hv]; exact pricingFilter_total _ tf ⟨_, rfl⟩)

theorem get_contact_total (entity : String) :
    ∃ r, BizzHubKnowledgeBase.get_contact entity = .ok r := by
  unfold BizzHubKnowledgeBase.get_contact
  cases hg : tblGet kbContact entity with
  | some v => exact ⟨v, rfl⟩
  | none => exact ⟨.table kbContactGeneral, rfl⟩

theorem get_location_total (center : Option String) :
    ∃ r, BizzHubKnowledgeBase.get_location center = .ok r := by
  unfold BizzHubKnowledgeBase.get_location
  cases center with
  | none => exact ⟨_, rfl⟩
  | some c =>
    by_cases hh : tblHas kbLocations c = true
    · unfold tblHas at hh
      rw [List.any_eq_true] at hh
      obtain ⟨p, hp, hpc⟩ := hh
      simp only [decide_eq_true_eq] at hpc
      simp only [kbLocations, List.mem_cons, List.not_mem_nil, or_false] at hp
      rcases hp with h|h|h|h|h <;> (subst h; subst hpc; exact ⟨_, rfl⟩)
    · have hfalse : tblHas kbLocations c = false := Bool.eq_false_iff.mpr hh
      simp only [hfalse, Bool.and_false]
      exact ⟨_, rfl⟩

theorem get_facility_total (facility : Option String) :
    ∃ r, BizzHubKnowledgeBase.get_facility facility = .ok r := by
  unfold BizzHubKnowledgeBase.get_facility
  cases facility with
  | none => exact ⟨_, rfl⟩
  | some f =>
    dsimp only
    by_cases hc : (decide (f ≠ "") && tblHas kbFacilities f) = true
    · rw [if_pos hc]
      have hhas : tblHas kbFacilities f = true := ((Bool.and_eq_true _ _).mp hc).2
      obtain ⟨v, hv⟩ := tblGet_some_of_has hhas
      rw [hv]
      exact ⟨v, rfl⟩
    · rw [if_neg hc]
      exact ⟨_, rfl⟩

/-!
Claim theorems
-/

/-- C1: the claim states that `ToolCall.execute` with name `"calculate"`
returns `12` for `"2+2*5"` and the `"Invalid expression"` result for
inputs outside the whitelist such as `"import os"`.  On the code as
written, `re` is unbound at module level, so `re.match` raises `NameError`
inside the `try`, the bare `except:` catches it, and the branch returns
`"Calculation error"` for every expression, for every currency oracle and
clock value — neither `12` nor `"Invalid expression"` is ever produced. -/
theorem ToolCall.execute_calculate_always_calculation_error
    (convert : ArgVal → ArgVal → ArgVal → Except PyError ℚ) (now : String) :
    ToolCall.execute convert now
      { name := "calculate", arguments := [("expression", .str "2+2*5")] }
      = .ok (.str "Calculation error") ∧
    ToolCall.execute convert now
      { name := "calculate", arguments := [("expression", .str "import os")] }
      = .ok (.str "Calculation error") :=
  ⟨rfl, rfl⟩

/-- C2: the claim states that after construction the tool registry holds
exactly the three built-in tools and `get_available_tools` returns one
schema per tool.  On the code as written, `register_tool` only returns a
decorator and `_register_default_tools` discards it, so for every
combination of configured API keys the registry of a freshly constructed
`LLMManager` is empty and `get_available_tools` returns the empty list. -/
theorem LLMManager.init_tool_registry_empty (hasGeminiKey hasOpenaiKey : Bool) :
    (LLMManager.init hasGeminiKey hasOpenaiKey).tool_registry = [] ∧
    LLMManager.get_available_tools
      (LLMManager.init hasGeminiKey hasOpenaiKey).tool_registry = [] := by
  cases hasGeminiKey <;> cases hasOpenaiKey <;> exact ⟨rfl, rfl⟩

/-- C3: the claim states that with a non-empty tool schema list, a provider
reply that does not encode a tool call is returned as-is (content = reply
text, no tool calls, provider id).  On the code as written, `_call_gemini`
reaches no `return` statement on that path (the `else` belongs to
`if tools:`), falls off the end of the `try` block and returns `None`:
here the reply `"Hello! How can I help you today?"` contains no tool-call
pattern and the result is `none` for every `json.loads` oracle, currency
oracle and clock. -/
theorem LLMManager.callGemini_plain_reply_with_tools_is_none
    (jsonLoads : String → Option (List (String × ArgVal)))
    (convert : ArgVal → ArgVal → ArgVal → Except PyError ℚ) (now : String) :
    LLMManager.callGemini jsonLoads convert now
      (some [{ ty := "function", name := "calculate",
               description := calculateSchema.description,
               parameters := calculateSchema.parameters }])
      { reply := some "Hello! How can I help you today?", followupReply := none }
      = none :=
  rfl

/-- C7: the claim states that `get_answer` returns the answer of the best entry
with `true` exactly when the top cosine similarity exceeds 0.3 and
`(None, false)` otherwise.  On the code as written, the guard of
`_find_similar_faqs` evaluates `self.faq_vectors.any()`, and scipy sparse
matrices have no `any` method, so every call — here the stock query
`"How do I create an invoice?"`, and in fact every query — raises
`AttributeError` instead of returning a pair. -/
theorem FAQRAGSystem.get_answer_always_raises :
    FAQRAGSystem.get_answer FAQRAGSystem.init "How do I create an invoice?"
      = .error (.attributeError "any not found") ∧
    ∀ query, FAQRAGSystem.get_answer FAQRAGSystem.init query
      = .error (.attributeError "any not found") :=
  ⟨rfl, fun _ => rfl⟩

/-- C8: the claim states the round-trip — after `add_faq`, querying with
the exact question text of the new entry retrieves its answer with `true`.  On
the code as written, `add_faq` does append the entry and fully rebuild the
index (first two conjuncts), but the subsequent `get_answer` call raises
`AttributeError` in `_find_similar_faqs` (see C7) instead of returning
the stored answer. -/
theorem FAQRAGSystem.add_faq_roundtrip_raises :
    (FAQRAGSystem.add_faq FAQRAGSystem.init "What is a proforma invoice?"
        "A preliminary bill of sale sent before the final invoice." "billing").faqs
      = defaultFaqs ++ [⟨"What is a proforma invoice?",
          "A preliminary bill of sale sent before the final invoice.", "billing"⟩] ∧
    (FAQRAGSystem.add_faq FAQRAGSystem.init "What is a proforma invoice?"
        "A preliminary bill of sale sent before the final invoice." "billing").faq_vectors
      = FAQRAGSystem.buildIndex (defaultFaqs ++ [⟨"What is a proforma invoice?",
          "A preliminary bill of sale sent before the final invoice.", "billing"⟩]) ∧
    FAQRAGSystem.get_answer
      (FAQRAGSystem.add_faq FAQRAGSystem.init "What is a proforma invoice?"
        "A preliminary bill of sale sent before the final invoice." "billing")
      "What is a proforma invoice?"
      = .error (.attributeError "any not found") :=
  ⟨rfl, rfl, rfl⟩

/-- C10: the claim states that an empty or whitespace-only query yields
`(None, false)` via the `not query.strip()` short-circuit without any
similarity computation.  On the code as written that short-circuit is
never reached: the first operand `self.faq_vectors.any()` raises
`AttributeError` (see C7), so the empty and whitespace queries raise too. -/
theorem FAQRAGSystem.get_answer_blank_query_raises :
    FAQRAGSystem.get_answer FAQRAGSystem.init "" = .error (.attributeError "any not found") ∧
    FAQRAGSystem.get_answer FAQRAGSystem.init "   " = .error (.attributeError "any not found") :=
  ⟨rfl, rfl⟩

/-- C9: every knowledge-base accessor is total — it returns `.ok` for every
argument, never an error — and the fallbacks are as claimed: unknown
pricing entity ↦ empty mapping, unknown contact entity ↦ the `general`
entry, absent or unknown location center ↦ the full location table,
absent or unknown facility name ↦ the full facility table. -/
theorem BizzHubKnowledgeBase.accessors_total (entity ec cu fu : String)
    (tf : Option String) (center fac : Option String) :
    (∃ r, BizzHubKnowledgeBase.get_pricing entity tf = .ok r) ∧
    (∃ r, BizzHubKnowledgeBase.get_contact ec = .ok r) ∧
    (∃ r, BizzHubKnowledgeBase.get_location center = .ok r) ∧
    (∃ r, BizzHubKnowledgeBase.get_facility fac = .ok r) ∧
    (tblHas kbPricing entity = false →
      BizzHubKnowledgeBase.get_pricing entity tf = .ok []) ∧
    (tblHas kbContact ec = false →
      BizzHubKnowledgeBase.get_contact ec = .ok (.table kbContactGeneral)) ∧
    (BizzHubKnowledgeBase.get_location none = .ok (.table kbLocations)) ∧
    (tblHas kbLocations cu = false →
      BizzHubKnowledgeBase.get_location (some cu) = .ok (.table kbLocations)) ∧
    (BizzHubKnowledgeBase.get_facility none = .ok (.table kbFacilities)) ∧
    (tblHas kbFacilities fu = false →
      BizzHubKnowledgeBase.get_facility (some fu) = .ok (.table kbFacilities)) := by
  refine ⟨get_pricing_total entity tf, get_contact_total ec, get_location_total center,
    get_facility_total fac, ?_, ?_, rfl, ?_, rfl, ?_⟩
  · intro h
    unfold BizzHubKnowledgeBase.get_pricing
    rw [tblGet_none_of_not_has h]
  · intro h
    unfold BizzHubKnowledgeBase.get_contact
    rw [tblGet_none_of_not_has h]
    rfl
  · intro h
    unfold BizzHubKnowledgeBase.get_location
    dsimp only
    simp only [h, Bool.and_false]
    rfl
  · intro h
    unfold BizzHubKnowledgeBase.get_facility
    dsimp only
    simp only [h, Bool.and_false]
    rfl

/-- Witness for C9 at concrete unknown keys. -/
theorem BizzHubKnowledgeBase.accessors_total_witness :
    BizzHubKnowledgeBase.get_pricing "rooftop_pool" (some "monthly") = .ok [] ∧
    BizzHubKnowledgeBase.get_contact "rooftop_pool" = .ok (.table kbContactGeneral) ∧
    BizzHubKnowledgeBase.get_location (some "rooftop_pool") = .ok (.table kbLocations) ∧
    BizzHubKnowledgeBase.get_facility (some "rooftop_pool") = .ok (.table kbFacilities) := by
  obtain ⟨-, -, -, -, h5, h6, -, h8, -, h10⟩ :=
    BizzHubKnowledgeBase.accessors_total "rooftop_pool" "rooftop_pool" "rooftop_pool"
      "rooftop_pool" (some "monthly") (some "rooftop_pool") (some "rooftop_pool")
  exact ⟨h5 rfl, h6 rfl, h8 rfl, h10 rfl⟩

/-- C6: `IntentParser.parse` classifies by an ordered cascade over the
lower-cased input — pricing keywords first, then contact, then location,
then facility, the first match winning; with no category keyword the
result is category `general` with `is_specific = false`; and a question
with a pricing keyword but no pricing entity pattern yields category
`pricing`, `is_specific = false`, `entity = none`. -/
theorem IntentParser.parse_cascade (q : String) :
    (hasKw pricingCascadeKeywords (pyLower q) = true →
      (IntentParser.parse q).type = .pricing) ∧
    (hasKw pricingCascadeKeywords (pyLower q) = false →
      hasKw contactCascadeKeywords (pyLower q) = true →
      (IntentParser.parse q).type = .contact) ∧
    (hasKw pricingCascadeKeywords (pyLower q) = false →
      hasKw contactCascadeKeywords (pyLower q) = false →
      hasKw locationCascadeKeywords (pyLower q) = true →
      (IntentParser.parse q).type = .location) ∧
    (hasKw pricingCascadeKeywords (pyLower q) = false →
      hasKw contactCascadeKeywords (pyLower q) = false →
      hasKw locationCascadeKeywords (pyLower q) = false →
      hasKw facilityCascadeKeywords (pyLower q) = true →
      (IntentParser.parse q).type = .facility) ∧
    (hasKw pricingCascadeKeywords (pyLower q) = false →
      hasKw contactCascadeKeywords (pyLower q) = false →
      hasKw locationCascadeKeywords (pyLower q) = false →
      hasKw facilityCascadeKeywords (pyLower q) = false →
      IntentParser.parse q = { type := .general, is_specific := false }) ∧
    (hasKw pricingCascadeKeywords (pyLower q) = true →
      firstPatternMatch pricingPatterns (pyLower q) = none →
      (IntentParser.parse q).type = .pricing ∧
      (IntentParser.parse q).is_specific = false ∧
      (IntentParser.parse q).entity = none) := by
  refine ⟨?_, ?_, ?_, ?_, ?_, ?_⟩ <;> intros <;>
    simp_all [IntentParser.parse, IntentParser.parsePricingIntent,
      IntentParser.parseContactIntent, IntentParser.parseLocationIntent,
      IntentParser.parseFacilityIntent]

/-- Witness for C6: `"What is the fee?"` has the pricing keyword `"fee"`
and no pricing entity pattern. -/
theorem IntentParser.parse_cascade_witness :
    (IntentParser.parse "What is the fee?").type = .pricing ∧
    (IntentParser.parse "What is the fee?").is_specific = false ∧
    (IntentParser.parse "What is the fee?").entity = none :=
  (IntentParser.parse_cascade "What is the fee?").2.2.2.2.2 (by decide) (by decide)

/-- Every `some` result of `_call_openai` carries provider `"openai"`. -/
theorem LLMManager.callOpenai_provider
    {convert : ArgVal → ArgVal → ArgVal → Except PyError ℚ} {now : String}
    {tools : Option (List ToolListing)} {oa : OpenAIOracle} {r : CallResult}
    (h : LLMManager.callOpenai convert now tools oa = some r) : r.provider = "openai" := by
  unfold LLMManager.callOpenai at h
  cases hm : oa.message with
  | none => rw [hm] at h; cases h
  | some msg =>
    rw [hm] at h
    dsimp only at h
    by_cases ht : toolsTruthy tools = true
    · rw [if_pos ht] at h
      cases hf : msg.function_call with
      | none => rw [hf] at h; cases h; rfl
      | some fc =>
        rw [hf] at h
        dsimp only at h
        cases he : ToolCall.execute convert now { name := fc.name, arguments := fc.arguments } with
        | error e => rw [he] at h; cases h
        | ok tr =>
          rw [he] at h
          cases hfu : oa.followupContent with
          | none => rw [hfu] at h; cases h
          | some f2 => rw [hfu] at h; cases h; rfl
    · rw [if_neg ht] at h
      cases h; rfl

/-- Every `some` result of `_call_gemini` carries provider `"gemini"`. -/
theorem LLMManager.callGemini_provider
    {jsonLoads : String → Option (List (String × ArgVal))}
    {convert : ArgVal → ArgVal → ArgVal → Except PyError ℚ} {now : String}
    {tools : Option (List ToolListing)} {g : GeminiOracle} {r : CallResult}
    (h : LLMManager.callGemini jsonLoads convert now tools g = some r) : r.provider = "gemini" := by
  unfold LLMManager.callGemini at h
  cases hm : g.reply with
  | none => rw [hm] at h; cases h
  | some text =>
    rw [hm] at h
    dsimp only at h
    by_cases ht : toolsTruthy tools = true
    · rw [if_pos ht] at h
      cases hf : findToolMatch text.toList with
      | none => rw [hf] at h; cases h
      | some m =>
        rw [hf] at h
        obtain ⟨toolName, args?⟩ := m
        cases args? with
        | none => cases h
        | some argsStr =>
          dsimp only at h
          cases hj : jsonLoads argsStr with
          | none => rw [hj] at h; cases h
          | some args =>
            rw [hj] at h
            dsimp only at h
            cases he : ToolCall.execute convert now { name := toolName, arguments := args } with
            | error e => rw [he] at h; cases h
            | ok tr =>
              rw [he] at h
              cases hfu : g.followupReply with
              | none => rw [hfu] at h; cases h
              | some f2 => rw [hfu] at h; cases h; rfl
    · rw [if_neg ht] at h
      cases h; rfl

/-- C4: if no provider is configured, or the call of every configured
provider fails, `generate_response` returns the deterministic fallback result:
provider `"fallback"`, no tool calls, and a content string that contains
the first 100 characters of the prompt.  The embedding is a total
function, so this path is exception-free by construction. -/
theorem LLMManager.generate_response_fallback_safety_net
    (hasGeminiKey hasOpenaiKey use_tools : Bool)
    (jsonLoads : String → Option (List (String × ArgVal)))
    (convert : ArgVal → ArgVal → ArgVal → Except PyError ℚ) (now prompt : String)
    (g : GeminiOracle) (oa : OpenAIOracle)
    (hg : LLMProvider.gemini ∈ (LLMManager.init hasGeminiKey hasOpenaiKey).providers →
      LLMManager.callGemini jsonLoads convert now
        (LLMManager.toolsArg (LLMManager.init hasGeminiKey hasOpenaiKey) use_tools) g = none)
    (ho : LLMProvider.openai ∈ (LLMManager.init hasGeminiKey hasOpenaiKey).providers →
      LLMManager.callOpenai convert now
        (LLMManager.toolsArg (LLMManager.init hasGeminiKey hasOpenaiKey) use_tools) oa = none) :
    LLMManager.generate_response (LLMManager.init hasGeminiKey hasOpenaiKey) use_tools
        jsonLoads convert now prompt g oa = LLMManager.fallbackResponse prompt ∧
    (LLMManager.fallbackResponse prompt).provider = "fallback" ∧
    (LLMManager.fallbackResponse prompt).tool_calls = [] ∧
    ∃ a b, (LLMManager.fallbackResponse prompt).content = a ++ prompt.take 100 ++ b := by
  refine ⟨?_, rfl, rfl,
    ⟨"I\x27m sorry, but I couldn\x27t process your request. The input was: ", "...", rfl⟩⟩
  unfold LLMManager.generate_response
  cases hasGeminiKey <;> cases hasOpenaiKey <;>
    simp_all [LLMManager.init, LLMManager.toolsArg, LLMManager.registerDefaultTools,
      LLMManager.register_tool, LLMManager.get_available_tools]

/-- Witness for C4: both API keys present, both providers fail. -/
theorem LLMManager.generate_response_fallback_safety_net_witness :
    LLMManager.generate_response (LLMManager.init true true) true (fun _ => none)
        (fun _ _ _ => .error (.runtimeError "rate service down")) "2026-01-01 00:00:00"
        "What is 100 USD in INR?" { reply := none, followupReply := none }
        { message := none, followupContent := none }
      = LLMManager.fallbackResponse "What is 100 USD in INR?" :=
  (LLMManager.generate_response_fallback_safety_net true true true (fun _ => none)
    (fun _ _ _ => .error (.runtimeError "rate service down")) "2026-01-01 00:00:00"
    "What is 100 USD in INR?" { reply := none, followupReply := none }
    { message := none, followupContent := none } (fun _ => rfl) (fun _ => rfl)).1

/-- C5: if the call of the active provider fails (returns `None`) and the
call of a different configured provider succeeds, `generate_response`
returns the result of that provider, whose `provider` field is the
identifier of that provider. -/
theorem LLMManager.generate_response_failover
    (hasGeminiKey hasOpenaiKey use_tools : Bool)
    (jsonLoads : String → Option (List (String × ArgVal)))
    (convert : ArgVal → ArgVal → ArgVal → Except PyError ℚ) (now prompt : String)
    (g : GeminiOracle) (oa : OpenAIOracle) (p q : LLMProvider) (r : CallResult)
    (hA : (LLMManager.init hasGeminiKey hasOpenaiKey).active_provider = some p)
    (hfail : LLMManager.callFor jsonLoads convert now
      (LLMManager.toolsArg (LLMManager.init hasGeminiKey hasOpenaiKey) use_tools) g oa p = none)
    (hq : q ∈ (LLMManager.init hasGeminiKey hasOpenaiKey).providers)
    (hne : q ≠ p)
    (hsucc : LLMManager.callFor jsonLoads convert now
      (LLMManager.toolsArg (LLMManager.init hasGeminiKey hasOpenaiKey) use_tools) g oa q
      = some r) :
    LLMManager.generate_response (LLMManager.init hasGeminiKey hasOpenaiKey) use_tools
        jsonLoads convert now prompt g oa = r ∧
    r.provider = q.value := by
  have hprov : r.provider = q.value := by
    cases q with
    | gemini => exact LLMManager.callGemini_provider hsucc
    | openai => exact LLMManager.callOpenai_provider hsucc
    | localProvider => cases hsucc
  refine ⟨?_, hprov⟩
  cases hasGeminiKey <;> cases hasOpenaiKey <;> cases p <;> cases q <;>
    simp_all [LLMManager.init, LLMManager.callFor, LLMManager.generate_response]

/-- Witness for C5: Gemini active and failing, OpenAI configured and
succeeding with a plain reply. -/
theorem LLMManager.generate_response_failover_witness :
    LLMManager.generate_response (LLMManager.init true true) false (fun _ => none)
        (fun _ _ _ => .error (.runtimeError "down")) "2026-01-01 00:00:00" "hello"
        { reply := none, followupReply := none }
        { message := some { content := "Hi! How can I help?", function_call := none },
          followupContent := none }
      = { content := "Hi! How can I help?", tool_calls := [], provider := "openai" } ∧
    ({ content := "Hi! How can I help?", tool_calls := [], provider := "openai" }
      : CallResult).provider = LLMProvider.value .openai :=
  LLMManager.generate_response_failover true true false (fun _ => none)
    (fun _ _ _ => .error (.runtimeError "down")) "2026-01-01 00:00:00" "hello"
    { reply := none, followupReply := none }
    { message := some { content := "Hi! How can I help?", function_call := none },
      followupContent := none }
    .gemini .openai
    { content := "Hi! How can I help?", tool_calls := [], provider := "openai" }
    rfl rfl (by decide) (by decide) rfl
